import Mathlib

/-!
Verification of the ts-fp outcome-handling library (Failure / Result / Option /
ActionState) against its natural-language specification.

The TypeScript sources are shallowly embedded:
* runtime JS values relevant to the library are modelled by `JSVal`
  (JS numbers are modelled by `Int`; the claims under study only involve `0`);
* a `Failure` object is a `JSVal.failure` node carrying its taxonomy kind, its
  `message`, its `cause` and a flag marking the process-wide EMPTY singleton
  (the flag is `true` exactly for the one value built at process start, so
  `this === Failure.EMPTY_INSTANCE` identity tests become flag tests);
* a thrown JS exception is the `Except.error` branch of `Except JSVal`;
* for the `async` statics (`Failure.of`, `Option.of`, `Result.of`) the
  returned `Except`/value models the *settled promise*: `Except.error e`
  means the promise rejects with `e` (an exception inside an `async` function
  is never raised synchronously in JS, it rejects the returned promise), and
  awaiting a deferred thunk is collapsed into the thunk's final outcome;
* a callback argument (action / runnable / mapper / supplier) is `none` when
  the caller passed `null`/`undefined` and `some f` otherwise; a callback that
  may itself throw returns `Except JSVal _`.  Functions whose only observable
  use of a callback is "was it invoked, and with what argument" record that
  invocation in their return value (`Option JSVal`).
-/

namespace TsFp

/-- Taxonomy tag of a `Failure` object: the concrete class it was constructed
through.  Only the kinds exercised by the claims are listed; `base` is the
`Failure` class itself. -/
inductive FailureKind where
  | base
  | illegalArgument
deriving DecidableEq

/-- A runtime JS value, restricted to the shapes the library manipulates:
`undefined`, `null`, booleans, numbers (as `Int`), strings, plain `Error`
objects (carrying their `message`), and `Failure` objects (kind, `message`,
`_cause`, and whether the value is the EMPTY singleton). -/
inductive JSVal : Type where
  | undefined
  | null
  | bool (b : Bool)
  | num (n : Int)
  | str (s : String)
  | err (message : String)
  | failure (kind : FailureKind) (message : String) (cause : JSVal) (sentinel : Bool)
deriving DecidableEq

/-- JS truthiness, negated: `undefined`, `null`, `false`, `0` and the empty
string are falsy; every object (including every `Error`/`Failure`) is truthy. -/
def JSVal.falsy : JSVal → Bool
  | .undefined => true
  | .null => true
  | .bool b => !b
  | .num n => n == 0
  | .str s => s == ""
  | .err _ => false
  | .failure _ _ _ _ => false

/-- `obj instanceof Failure`. -/
def JSVal.isFailureObj : JSVal → Bool
  | .failure _ _ _ _ => true
  | _ => false

/-- `obj instanceof Error`: `Failure extends Error`, so both `err` and
`failure` nodes qualify. -/
def JSVal.isErrorObj : JSVal → Bool
  | .err _ => true
  | .failure _ _ _ _ => true
  | _ => false

/-- The `message` property of an error-like value (empty for non-errors;
call sites guard with `instanceof`). -/
def JSVal.errMessage : JSVal → String
  | .err m => m
  | .failure _ m _ _ => m
  | _ => ""

/-- The `message` property read through optional chaining (`x?.message`):
`undefined` when the receiver is `undefined`/`null` or has no such property. -/
def JSVal.msgProp : JSVal → JSVal
  | .err m => .str m
  | .failure _ m _ _ => .str m
  | _ => .undefined

/-- The `message` of a `Failure` node (used by the claims as the observable
`message` attribute). -/
def JSVal.failureMessage : JSVal → String
  | .failure _ m _ _ => m
  | _ => ""

/-- The `cause` of a `Failure` node. -/
def JSVal.failureCause : JSVal → JSVal
  | .failure _ _ c _ => c
  | _ => .undefined

/-- Whether the value is the EMPTY `Failure` singleton. -/
def JSVal.isSentinel : JSVal → Bool
  | .failure _ _ _ s => s
  | _ => false

/-- Whether the value is an `IllegalArgument` (the taxonomy member reserved
for programmer-misuse signals). -/
def JSVal.isIllegalArgument : JSVal → Bool
  | .failure .illegalArgument _ _ _ => true
  | _ => false

/-- JS `String()` coercion.  In the embedded code `String()` is only ever
applied (in `Failure.fromCause`) to values guarded by
`cause instanceof Error ? ... : String(...)`, so the error/failure branches
below are unreachable at the modelled call sites; they are given the
error-message-based rendering for totality. -/
def JSVal.toJSString : JSVal → String
  | .undefined => "undefined"
  | .null => "null"
  | .bool b => if b then "true" else "false"
  | .num n => toString n
  | .str s => s
  | .err m => if m = "" then "Error" else "Error: " ++ m
  | .failure _ m _ s => if s then "Failure.EMPTY" else m

/-- `Failure.EMPTY_INSTANCE = new Failure('no failure', undefined)`, created
once at module load; the `sentinel` flag is set only here. -/
def Failure.EMPTY : JSVal := .failure .base "no failure" .undefined true

/-- The `Failure` constructor (also reached through every subclass
constructor, which forwards its message with no cause):
`super(message || "An unknown failure occurred")`, then the cause is stored.
Every value built here carries `sentinel := false`: at runtime no freshly
constructed object can be `===` the EMPTY singleton. -/
def mkFailure (kind : FailureKind) (message : String) (cause : JSVal) : JSVal :=
  .failure kind (if message == "" then "An unknown failure occurred" else message) cause false

/-- `new IllegalArgument(message)`: the subclass forwards the message to the
`Failure` constructor, no cause. -/
def illegalArg (message : String) : JSVal := mkFailure .illegalArgument message .undefined

/-- `Failure.empty()` returns the singleton. -/
def Failure.emptyF : JSVal := Failure.EMPTY

/-- `Failure.wrap(message, cause)`. -/
def Failure.wrap (message : String) (cause : JSVal) : JSVal :=
  mkFailure .base message cause

/-- `Failure.ofMessage(message)`: `new Failure(message)` with no cause. -/
def Failure.ofMessage (message : String) : JSVal := mkFailure .base message .undefined

/-- `failure.isEmpty()`: `this === Failure.EMPTY_INSTANCE` (identity against
the singleton, which the sentinel flag tracks exactly). -/
def Failure.isEmptyF (f : JSVal) : Bool := f.isSentinel

/-- `failure.isPresent()`: `!this.isEmpty()`. -/
def Failure.isPresentF (f : JSVal) : Bool := !(Failure.isEmptyF f)

/-- A value that is a `Failure` object and not the EMPTY singleton: the
spec's "present Failure". -/
def isPresentFailureObj (v : JSVal) : Bool := v.isFailureObj && Failure.isPresentF v

/-- `Failure.fromCause(cause, message?)`: a present `Failure` cause is
returned unchanged; otherwise the message is
`message || (cause instanceof Error ? cause.message : String(cause || 'unknown cause'))`
and a new `Failure` wraps the cause. -/
def Failure.fromCause (cause : JSVal) (message : Option String) : JSVal :=
  if cause.isFailureObj && Failure.isPresentF cause then cause
  else
    let derived : String :=
      if cause.isErrorObj then cause.errMessage
      else JSVal.toJSString (if cause.falsy then .str "unknown cause" else cause)
    let effectiveMessage : String :=
      match message with
      | some s => if s == "" then derived else s
      | none => derived
    mkFailure .base effectiveMessage cause

/-- `failure.unwrap()`: one level of cause unwrapping. -/
def Failure.unwrap (f : JSVal) : JSVal :=
  if f.failureCause.isFailureObj && Failure.isPresentF f.failureCause then f.failureCause
  else f

/-- `failure.ifPresent(action)`: throws a plain `Error` (not an
`IllegalArgument`) when the action is absent; otherwise records whether the
action was invoked and with which argument. -/
def Failure.ifPresent (action : Bool) (f : JSVal) : Except JSVal (Option JSVal) :=
  if !action then .error (.err "Action provided to ifPresent is null/undefined")
  else if Failure.isPresentF f then .ok (some f)
  else .ok none

/-- `failure.ifEmpty(runnable)`: throws a plain `Error` when the runnable is
absent; otherwise records whether the runnable was invoked. -/
def Failure.ifEmpty (action : Bool) (f : JSVal) : Except JSVal (Option Unit) :=
  if !action then .error (.err "Runnable provided to ifEmpty is null/undefined")
  else if Failure.isEmptyF f then .ok (some ())
  else .ok none

/-- JS `String.prototype.trim()`: strip whitespace from both ends.  Modelled
executably over the character list (the core `String.trim` does not reduce
inside `decide`). -/
def jsTrim (s : String) : String :=
  String.mk (((s.toList.dropWhile Char.isWhitespace).reverse.dropWhile Char.isWhitespace).reverse)

/-- Whether `e instanceof Error && e.message && e.message.trim() !== ''`. -/
def hasNonBlankErrorMessage (e : JSVal) : Bool :=
  e.isErrorObj && !(e.errMessage == "") && !(jsTrim e.errMessage == "")

/-- Whether `typeof e === 'string' && e.trim() !== ''`. -/
def isNonBlankString : JSVal → Bool
  | .str s => !(jsTrim s == "")
  | _ => false

/-- The string content of a string value (call sites guard with
`isNonBlankString`). -/
def strContent : JSVal → String
  | .str s => s
  | _ => ""

/-- The catch-block message derivation shared by `Failure.of`,
`Result.map` and `Result.flatMap`: error message if non-blank, else the
thrown string if non-blank, else the given fallback. -/
def deriveThrownMessage (fallback : String) (e : JSVal) : String :=
  if hasNonBlankErrorMessage e then e.errMessage
  else if isNonBlankString e then strContent e
  else fallback

/-- `Failure.of(runnable)` (async): rejects with a plain `Error` when the
runnable is absent; otherwise resolves with the EMPTY singleton on success,
or with a present `Failure` wrapping the thrown/rejected value on failure. -/
def Failure.of (runnable : Option (Unit → Except JSVal Unit)) : Except JSVal JSVal :=
  match runnable with
  | none => .error (.err "Runnable provided to Failure.of is null/undefined")
  | some f =>
    .ok (match f () with
      | .ok _ => Failure.emptyF
      | .error e =>
        Failure.wrap (deriveThrownMessage "An unexpected error occurred during runnable execution." e) e)

/-- The `Result` class: `_value?: T | undefined` and
`_failure?: Failure | undefined`, both set by the private constructor. -/
structure Result where
  valueSlot : JSVal
  failureSlot : JSVal
deriving DecidableEq

/-- `Result.ok(value)`: `new Result(undefined, value)` — no validation. -/
def Result.ok (value : JSVal) : Result := ⟨value, .undefined⟩

/-- The static `Result.failure(failure)`: `new Result(failure, undefined)` —
the live class method performs no null/empty validation (the validating
variant exists only in a commented-out helper in the same file). -/
def Result.failureR (f : JSVal) : Result := ⟨.undefined, f⟩

/-- `Result.failureWithMessage(message)`. -/
def Result.failureWithMessage (message : String) : Result :=
  Result.failureR (Failure.ofMessage message)

/-- `result.isOk()`: `this._failure === undefined`. -/
def Result.isOk (r : Result) : Bool := r.failureSlot == .undefined

/-- `result.isFailure()`: `this._failure !== undefined`. -/
def Result.isFailure (r : Result) : Bool := !(r.failureSlot == .undefined)

/-- The instance method `result.failure()`: throws an `IllegalArgument` on a
success Result, else `this._failure ? this._failure : Failure.empty()`. -/
def Result.failureMethod (r : Result) : Except JSVal JSVal :=
  if r.isOk then .error (illegalArg "Cannot get failure from a successful Result.")
  else .ok (if r.failureSlot.falsy then Failure.emptyF else r.failureSlot)

/-- `result.expect(message)`: `if (!this._value) throw Failure.wrap(...)` —
presence of the success value is a JS truthiness test on `_value`; the thrown
Failure's message interpolates `this._failure?.message` (the string
"undefined" when the slot is empty) and its cause is the `_failure` slot. -/
def Result.expect (message : String) (r : Result) : Except JSVal JSVal :=
  if r.valueSlot.falsy then
    .error (Failure.wrap (message ++ ": " ++ JSVal.toJSString r.failureSlot.msgProp) r.failureSlot)
  else .ok r.valueSlot

/-- `result.get()`: `expect` with the fixed default prefix. -/
def Result.get (r : Result) : Except JSVal JSVal :=
  Result.expect "No value present, Result is in a failure state." r

/-- `result.ifOk(action)`: throws an `IllegalArgument` when the action is
absent; invokes the action iff `this._value` is truthy. -/
def Result.ifOk (action : Bool) (r : Result) : Except JSVal (Option JSVal) :=
  if !action then .error (illegalArg "Action provided to ifOk is null/undefined")
  else if r.valueSlot.falsy then .ok none
  else .ok (some r.valueSlot)

/-- `result.ifFailure(action)`: throws an `IllegalArgument` when the action
is absent; invokes the action with
`this._failure ? this._failure : Failure.empty()` iff `isFailure()`. -/
def Result.ifFailure (action : Bool) (r : Result) : Except JSVal (Option JSVal) :=
  if !action then .error (illegalArg "Action provided to ifFailure is null/undefined")
  else if r.isFailure then .ok (some (if r.failureSlot.falsy then Failure.emptyF else r.failureSlot))
  else .ok none

/-- `result.map(mapper)`: `IllegalArgument` when the mapper is absent; when
`_value` is falsy, short-circuits to
`Result.failure(this._failure ? this._failure : Failure.ofMessage("this is never called"))`;
otherwise applies the mapper, wrapping a thrown value into a failure Result
with the shared message derivation. -/
def Result.map (mapper : Option (JSVal → Except JSVal JSVal)) (r : Result) :
    Except JSVal Result :=
  match mapper with
  | none => .error (illegalArg "Mapper provided to map is null/undefined")
  | some fn =>
    if r.valueSlot.falsy then
      .ok (Result.failureR
        (if r.failureSlot.falsy then Failure.ofMessage "this is never called" else r.failureSlot))
    else
      match fn r.valueSlot with
      | .ok u => .ok (Result.ok u)
      | .error e =>
        .ok (Result.failureR (Failure.wrap (deriveThrownMessage "An error occurred during mapping." e) e))

/-- `result.flatMap(mapper)`: same short-circuit as `map`; on the success
path the mapper's Result is returned directly, and a thrown value is wrapped
with the flatMapping fallback message. -/
def Result.flatMap (mapper : Option (JSVal → Except JSVal Result)) (r : Result) :
    Except JSVal Result :=
  match mapper with
  | none => .error (illegalArg "Mapper provided to flatMap is null/undefined")
  | some fn =>
    if r.valueSlot.falsy then
      .ok (Result.failureR
        (if r.failureSlot.falsy then Failure.ofMessage "this is never called" else r.failureSlot))
    else
      match fn r.valueSlot with
      | .ok r2 => .ok r2
      | .error e =>
        .ok (Result.failureR (Failure.wrap (deriveThrownMessage "An error occurred during flatMapping." e) e))

/-- The message derivation in `Result.of`'s catch block: it has one extra
branch over `deriveThrownMessage` — a thrown `Failure` whose message is blank
still contributes `error.message` before the generic fallback. -/
def deriveSupplierMessage (e : JSVal) : String :=
  if hasNonBlankErrorMessage e then e.errMessage
  else if isNonBlankString e then strContent e
  else if e.isFailureObj then e.errMessage
  else "An unexpected error occurred during supplier execution."

/-- `Result.of(supplier)` (async): when the supplier is absent it RETURNS
`Result.failure(new IllegalArgument(...))` as the resolved value (it does not
throw); otherwise the supplier's outcome (awaited if deferred) becomes an ok
Result, and any thrown/rejected value becomes a failure Result.  The promise
never rejects, hence the plain `Result` return type. -/
def Result.of (supplier : Option (Unit → Except JSVal JSVal)) : Result :=
  match supplier with
  | none => Result.failureR (illegalArg "Supplier provided to Result.of is null/undefined")
  | some f =>
    match f () with
    | .ok v => Result.ok v
    | .error e => Result.failureR (Failure.wrap (deriveSupplierMessage e) e)

/-- The free helper `wrapFailure(message, cause)`: the explicit message when
it is a non-blank string (`message && message.trim() !== ''`), else the
cause's non-blank error message, else the fixed generic fallback; always
wraps the cause.  Per its TS signature `message` is a string, `null` or
`undefined`. -/
def wrapFailure (message : JSVal) (cause : JSVal) : JSVal :=
  let causeMessage : String :=
    if hasNonBlankErrorMessage cause then cause.errMessage
    else "An unexpected error occurred."
  let finalMessage : String :=
    match message with
    | .str s => if jsTrim s == "" then causeMessage else s
    | _ => causeMessage
  Failure.wrap finalMessage cause

/-- The `Option` class (named `JSOption` here to avoid the core `Option`):
`value: T | null`, with `EMPTY_INSTANCE = new Option(null)`. -/
structure JSOption where
  value : JSVal
deriving DecidableEq

/-- `Option.empty()`: the module-level `new Option(null)` instance. -/
def JSOption.emptyO : JSOption := ⟨.null⟩

/-- `Option.ok(value)`: throws a plain `Error` for `null`/`undefined`, else
wraps the value. -/
def JSOption.ok (value : JSVal) : Except JSVal JSOption :=
  if value == .undefined || value == .null then
    .error (.err "Option.of received null or undefined. Use Option.orUndefined instead.")
  else .ok ⟨value⟩

/-- `Option.orUndefinedOrNullable(value)`. -/
def JSOption.orUndefinedOrNullable (value : JSVal) : JSOption :=
  if value == .undefined || value == .null then JSOption.emptyO else ⟨value⟩

/-- `option.isOk()`: `this.value !== null`. -/
def JSOption.isOk (o : JSOption) : Bool := !(o.value == .null)

/-- `option.isEmpty()`: `this.value === null`. -/
def JSOption.isEmpty (o : JSOption) : Bool := o.value == .null

/-- `option.get()`: `if (!this.value) throw new Failure("Attempted to get value from an empty Option.")`
— note the JS truthiness test, unlike the strict `!== null` tests used by
every other method of the class. -/
def JSOption.get (o : JSOption) : Except JSVal JSVal :=
  if o.value.falsy then
    .error (mkFailure .base "Attempted to get value from an empty Option." .undefined)
  else .ok o.value

/-- `option.getOrElse(defaultValue)`. -/
def JSOption.getOrElse (defaultValue : JSVal) (o : JSOption) : JSVal :=
  if !(o.value == .null) then o.value else defaultValue

/-- `Option.of(supplier)` (async): rejects with a plain `Error` (whose text
was copy-pasted from `Failure.of`) when the supplier is absent; otherwise the
whole body runs inside try/catch, so a thrown/rejected supplier — and even
the `Option.ok` throw on a `null`/`undefined` outcome — collapses to the
empty Option. -/
def JSOption.of (supplier : Option (Unit → Except JSVal JSVal)) : Except JSVal JSOption :=
  match supplier with
  | none => .error (.err "Runnable provided to Failure.of is null/undefined")
  | some f =>
    .ok (match f () with
      | .error _ => JSOption.emptyO
      | .ok v =>
        match JSOption.ok v with
        | .ok o => o
        | .error _ => JSOption.emptyO)

/-- The `ActionState<T>` tagged union from action.ts: `InitResult`,
`OkResult` (carrying `value`) and `FailureResult` (carrying `failure`). -/
inductive ActionState where
  | init
  | okV (value : JSVal)
  | failureV (failureObj : JSVal)
deriving DecidableEq

/-- `okState(value)`: builds the Ok variant unconditionally (the
value-presence validation is commented out in the source). -/
def okState (value : JSVal) : ActionState := .okV value

/-- `initState()`. -/
def initState : ActionState := .init

/-- `failureState(error)`: `IllegalArgument` when the argument is
`null`/`undefined` or when `error.isEmpty()`; otherwise builds the Failure
variant holding the argument. -/
def failureState (error : JSVal) : Except JSVal ActionState :=
  if error == .null || error == .undefined then
    .error (illegalArg "Failure object cannot be null or undefined for an error Result.")
  else if Failure.isEmptyF error then
    .error (illegalArg "Cannot create a failure Result with an empty Failure object. Use Result.ok() instead.")
  else .ok (.failureV error)

/-! ### Shared helper lemmas -/

/-- Every value built by the `Failure` constructor is a present Failure
object: the sentinel flag is reserved for the EMPTY singleton. -/
theorem isPresentFailureObj_mkFailure (k : FailureKind) (m : String) (c : JSVal) :
    isPresentFailureObj (mkFailure k m c) = true := by
  simp only [mkFailure]
  split <;> rfl

/-- The constructor stores the cause unchanged. -/
theorem failureCause_mkFailure (k : FailureKind) (m : String) (c : JSVal) :
    (mkFailure k m c).failureCause = c := by
  simp only [mkFailure]
  split <;> rfl

/-- The constructor keeps a non-empty message unchanged. -/
theorem failureMessage_mkFailure_of_ne (k : FailureKind) (m : String) (c : JSVal)
    (hm : m ≠ "") : (mkFailure k m c).failureMessage = m := by
  simp [mkFailure, hm, JSVal.failureMessage]

/-- The constructor replaces an empty message by its default. -/
theorem failureMessage_mkFailure_of_eq (k : FailureKind) (c : JSVal) :
    (mkFailure k "" c).failureMessage = "An unknown failure occurred" := by
  rfl

/-- A non-blank error message is in particular non-empty. -/
theorem errMessage_ne_of_hasNonBlank (e : JSVal) (h : hasNonBlankErrorMessage e = true) :
    e.errMessage ≠ "" := by
  simp only [hasNonBlankErrorMessage, Bool.and_eq_true, Bool.not_eq_true', beq_eq_false_iff_ne]
    at h
  exact h.1.2

/-- A non-blank string value has non-empty content. -/
theorem strContent_ne_of_isNonBlank (e : JSVal) (h : isNonBlankString e = true) :
    strContent e ≠ "" := by
  cases e with
  | str s =>
    intro hs
    have hs' : s = "" := hs
    subst hs'
    exact absurd h (by decide)
  | undefined => simp [isNonBlankString] at h
  | null => simp [isNonBlankString] at h
  | bool b => simp [isNonBlankString] at h
  | num n => simp [isNonBlankString] at h
  | err m => simp [isNonBlankString] at h
  | failure k m c s => simp [isNonBlankString] at h

/-- `undefined` is falsy (reduction helper for the `_failure` slot test on
the short-circuit paths). -/
theorem falsy_undef : JSVal.undefined.falsy = true := rfl

/-- `Failure.wrap` always builds a present Failure. -/
theorem isPresentFailureObj_wrap (m : String) (c : JSVal) :
    isPresentFailureObj (Failure.wrap m c) = true :=
  isPresentFailureObj_mkFailure _ _ _

/-- On a falsy `_value` slot, `expect` throws the wrapped Failure built from
the prefix message, the interpolated `_failure?.message` and the `_failure`
slot as cause. -/
theorem result_expect_falsy (m : String) (r : Result) (h : r.valueSlot.falsy = true) :
    Result.expect m r
      = Except.error
          (Failure.wrap (m ++ ": " ++ JSVal.toJSString r.failureSlot.msgProp) r.failureSlot) := by
  simp [Result.expect, h]

/-! ### C1 -/

/-- C1: `Result.ok` on a falsy success value (`0`, `""`, `false`) yields a
Result whose `isOk()` is `true`, yet `get()` and `expect` throw a wrapped
present Failure, and `map`/`flatMap` do not invoke their mapper (their outcome
is independent of it) and `ifOk` does not invoke its action — the value
presence test is a JS truthiness check that treats these success values as
"no value". -/
theorem c1_falsy_ok_value_treated_absent (v : JSVal) (h : v.falsy = true) :
    (Result.ok v).isOk = true
    ∧ (∃ f, Result.get (Result.ok v) = Except.error f ∧ isPresentFailureObj f = true)
    ∧ (∀ m, ∃ f, Result.expect m (Result.ok v) = Except.error f ∧ isPresentFailureObj f = true)
    ∧ (∀ fn fn', Result.map (some fn) (Result.ok v) = Result.map (some fn') (Result.ok v))
    ∧ (∀ fn fn', Result.flatMap (some fn) (Result.ok v) = Result.flatMap (some fn') (Result.ok v))
    ∧ Result.ifOk true (Result.ok v) = Except.ok none := by
  refine ⟨rfl, ?_, ?_, ?_, ?_, ?_⟩
  · exact ⟨_, result_expect_falsy _ (Result.ok v) h, isPresentFailureObj_wrap _ _⟩
  · intro m
    exact ⟨_, result_expect_falsy m (Result.ok v) h, isPresentFailureObj_wrap _ _⟩
  · intro fn fn'
    simp [Result.map, Result.ok, h, falsy_undef]
  · intro fn fn'
    simp [Result.flatMap, Result.ok, h, falsy_undef]
  · simp [Result.ifOk, Result.ok, h]

/-- Witness for C1 at the spec's concrete quirk input `Result.ok(0)`. -/
theorem c1_falsy_ok_value_treated_absent_witness :
    JSVal.falsy (JSVal.num 0) = true
    ∧ (Result.ok (JSVal.num 0)).isOk = true
    ∧ (∃ f, Result.get (Result.ok (JSVal.num 0)) = Except.error f ∧ isPresentFailureObj f = true)
    ∧ Result.ifOk true (Result.ok (JSVal.num 0)) = Except.ok none := by
  have h := c1_falsy_ok_value_treated_absent (JSVal.num 0) (by decide)
  exact ⟨by decide, h.1, h.2.1, h.2.2.2.2.2⟩

/-! ### C2 -/

/-- C2 fails on the code: the live static `Result.failure` performs no
validation.  Evaluated at the failing input `Result.failure(Failure.empty())`
it returns (rather than rejecting with an invalid-argument signal) a failure
Result whose held failure is the EMPTY sentinel — which also refutes the
claimed invariant that every failure Result holds a present Failure.  (Its
total type `JSVal → Result` mirrors the absence of any throwing path in the
method body.)  The same applies to an absent argument, modelled by `null`. -/
theorem c2_result_failure_static_accepts_empty_sentinel :
    Result.failureR Failure.emptyF = ⟨JSVal.undefined, Failure.EMPTY⟩
    ∧ (Result.failureR Failure.emptyF).isFailure = true
    ∧ Result.failureMethod (Result.failureR Failure.emptyF) = Except.ok Failure.EMPTY
    ∧ isPresentFailureObj Failure.EMPTY = false
    ∧ (Result.failureR JSVal.null).isFailure = true :=
  ⟨rfl, rfl, rfl, rfl, rfl⟩

/-! ### C3 -/

/-- C3: a failure Result short-circuits `map` and `flatMap`: for every mapper
the outcome is the same failure Result (so the mapper is never invoked), the
held Failure is passed through unchanged — not re-wrapped — and reading it
back with `failure()` yields exactly the held Failure. -/
theorem c3_failure_short_circuit_preserves_failure (f : JSVal) (h : f.isFailureObj = true) :
    (∀ fn, Result.map (some fn) (Result.failureR f) = Except.ok (Result.failureR f))
    ∧ (∀ fn, Result.flatMap (some fn) (Result.failureR f) = Except.ok (Result.failureR f))
    ∧ Result.failureMethod (Result.failureR f) = Except.ok f := by
  cases f with
  | failure k m c s =>
    refine ⟨fun fn => ?_, fun fn => ?_, ?_⟩
    · simp [Result.map, Result.failureR, JSVal.falsy]
    · simp [Result.flatMap, Result.failureR, JSVal.falsy]
    · simp [Result.failureMethod, Result.isOk, Result.failureR, JSVal.falsy]
  | undefined => simp [JSVal.isFailureObj] at h
  | null => simp [JSVal.isFailureObj] at h
  | bool b => simp [JSVal.isFailureObj] at h
  | num n => simp [JSVal.isFailureObj] at h
  | str s => simp [JSVal.isFailureObj] at h
  | err m => simp [JSVal.isFailureObj] at h

/-- Witness for C3 at `f = Failure.ofMessage "e"`. -/
theorem c3_failure_short_circuit_preserves_failure_witness :
    (∀ fn, Result.map (some fn) (Result.failureR (Failure.ofMessage "e"))
      = Except.ok (Result.failureR (Failure.ofMessage "e")))
    ∧ Result.failureMethod (Result.failureR (Failure.ofMessage "e"))
      = Except.ok (Failure.ofMessage "e") := by
  have h := c3_failure_short_circuit_preserves_failure (Failure.ofMessage "e") (by decide)
  exact ⟨h.1, h.2.2⟩

/-! ### C4 -/

/-- C4: on a success Result holding a falsy value, `map` and `flatMap` do not
invoke the mapper and return a new failure Result holding a freshly
constructed present Failure whose message is exactly "this is never called"
(the `_failure` slot being `undefined` on this short-circuit path). -/
theorem c4_falsy_value_short_circuit_fresh_failure (v : JSVal) (h : v.falsy = true) :
    (∀ fn, Result.map (some fn) (Result.ok v)
      = Except.ok (Result.failureR (Failure.ofMessage "this is never called")))
    ∧ (∀ fn, Result.flatMap (some fn) (Result.ok v)
      = Except.ok (Result.failureR (Failure.ofMessage "this is never called")))
    ∧ (Failure.ofMessage "this is never called").failureMessage = "this is never called"
    ∧ isPresentFailureObj (Failure.ofMessage "this is never called") = true := by
  refine ⟨fun fn => ?_, fun fn => ?_, by decide, by decide⟩
  · simp [Result.map, Result.ok, h, falsy_undef]
  · simp [Result.flatMap, Result.ok, h, falsy_undef]

/-- Witness for C4 at the falsy success value `""`. -/
theorem c4_falsy_value_short_circuit_fresh_failure_witness :
    JSVal.falsy (JSVal.str "") = true
    ∧ (∀ fn, Result.map (some fn) (Result.ok (JSVal.str ""))
      = Except.ok (Result.failureR (Failure.ofMessage "this is never called")))
    ∧ (Failure.ofMessage "this is never called").failureMessage = "this is never called" := by
  have h := c4_falsy_value_short_circuit_fresh_failure (JSVal.str "") (by decide)
  exact ⟨by decide, h.1, h.2.2.1⟩

/-! ### Further shared helper lemmas -/

/-- The catch-block message derivation never yields an empty string when its
fallback is non-empty, so the `Failure` constructor stores it unchanged. -/
theorem deriveThrownMessage_ne_empty (fb : String) (hfb : fb ≠ "") (e : JSVal) :
    deriveThrownMessage fb e ≠ "" := by
  unfold deriveThrownMessage
  by_cases h1 : hasNonBlankErrorMessage e = true
  · simpa [h1] using errMessage_ne_of_hasNonBlank e h1
  · by_cases h2 : isNonBlankString e = true
    · simpa [h1, h2] using strContent_ne_of_isNonBlank e h2
    · simpa [h1, h2] using hfb

/-- An `IllegalArgument` construction is recognised as such whatever its
message. -/
theorem illegalArg_isIllegalArgument (m : String) :
    (illegalArg m).isIllegalArgument = true := rfl

/-! ### C5 -/

/-- C5: `Failure.of(thunk)` executes the thunk; on success it resolves with
the EMPTY sentinel (the very value `Failure.empty()` returns), and on a
thrown/rejected value `e` it resolves with a present Failure whose cause is
`e` and whose message is, in order: `e.message` when `e` is an error with a
non-blank message, `e` itself when it is a non-blank string, and a generic
fallback otherwise. -/
theorem c5_failure_of_executes_thunk (t : Unit → Except JSVal Unit) :
    (t () = Except.ok () → Failure.of (some t) = Except.ok Failure.emptyF)
    ∧ (∀ e, t () = Except.error e →
        ∃ f, Failure.of (some t) = Except.ok f
          ∧ isPresentFailureObj f = true
          ∧ f.failureCause = e
          ∧ f.failureMessage =
              (if hasNonBlankErrorMessage e then e.errMessage
               else if isNonBlankString e then strContent e
               else "An unexpected error occurred during runnable execution.")) := by
  constructor
  · intro h
    simp [Failure.of, h]
  · intro e he
    refine ⟨Failure.wrap
        (deriveThrownMessage "An unexpected error occurred during runnable execution." e) e,
      ?_, isPresentFailureObj_wrap _ _, failureCause_mkFailure _ _ _, ?_⟩
    · simp [Failure.of, he]
    · exact failureMessage_mkFailure_of_ne _ _ _
        (deriveThrownMessage_ne_empty _ (by decide) e)

/-- Witness for C5 at a succeeding thunk and at a thunk throwing
`new Error("boom")`. -/
theorem c5_failure_of_executes_thunk_witness :
    Failure.of (some (fun _ => Except.ok ())) = Except.ok Failure.emptyF
    ∧ ∃ f, Failure.of (some (fun _ => Except.error (JSVal.err "boom"))) = Except.ok f
        ∧ isPresentFailureObj f = true
        ∧ f.failureCause = JSVal.err "boom"
        ∧ f.failureMessage = "boom" := by
  constructor
  · exact (c5_failure_of_executes_thunk (fun _ => Except.ok ())).1 rfl
  · obtain ⟨f, h1, h2, h3, h4⟩ :=
      (c5_failure_of_executes_thunk (fun _ => Except.error (JSVal.err "boom"))).2
        (JSVal.err "boom") rfl
    exact ⟨f, h1, h2, h3, h4.trans (by decide)⟩

/-! ### C6 -/

/-- C6 fails on the code: `Option.ok(0)` is a present Option (`isOk()` true,
`isEmpty()` false), yet `get()` throws the present Failure "Attempted to get
value from an empty Option." because the method tests JS truthiness of the
held value instead of the strict `!== null` test used by every other Option
method — so `get` does not throw "if and only if `isEmpty()`". -/
theorem c6_option_get_throws_on_present_falsy :
    JSOption.ok (JSVal.num 0) = Except.ok ⟨JSVal.num 0⟩
    ∧ JSOption.isOk ⟨JSVal.num 0⟩ = true
    ∧ JSOption.isEmpty ⟨JSVal.num 0⟩ = false
    ∧ JSOption.get ⟨JSVal.num 0⟩
        = Except.error (mkFailure .base "Attempted to get value from an empty Option." JSVal.undefined)
    ∧ isPresentFailureObj
        (mkFailure .base "Attempted to get value from an empty Option." JSVal.undefined) = true :=
  ⟨rfl, rfl, rfl, rfl, rfl⟩

/-! ### C7 -/

/-- C7 as stated is false: for the non-error, non-absent cause `false` (with
no message), `fromCause` does not use the stringified cause `"false"` — the
code stringifies `cause || 'unknown cause'`, so every falsy cause collapses
to the message "unknown cause". -/
theorem c7_fromCause_stringified_falsy_counterexample :
    Failure.fromCause (JSVal.bool false) none
      = JSVal.failure .base "unknown cause" (JSVal.bool false) false
    ∧ (Failure.fromCause (JSVal.bool false) none).failureMessage = "unknown cause"
    ∧ JSVal.toJSString (JSVal.bool false) = "false"
    ∧ (Failure.fromCause (JSVal.bool false) none).failureMessage
        ≠ JSVal.toJSString (JSVal.bool false) :=
  ⟨rfl, rfl, rfl, by decide⟩

/-- C7 amended: `fromCause(cause, message?)` returns the cause itself when it
is a present Failure; otherwise it returns a new present Failure wrapping the
cause whose message is: the provided message if non-empty; else the cause's
`message` when the cause is an error (with the constructor default "An
unknown failure occurred" when that message is empty); else the stringified
cause when the cause is truthy; else "unknown cause". -/
theorem c7_fromCause_amended (cause : JSVal) (m : Option String) :
    (isPresentFailureObj cause = true → Failure.fromCause cause m = cause)
    ∧ (isPresentFailureObj cause = false →
        isPresentFailureObj (Failure.fromCause cause m) = true)
    ∧ (isPresentFailureObj cause = false →
        (Failure.fromCause cause m).failureCause = cause)
    ∧ (isPresentFailureObj cause = false → ∀ s, m = some s → s ≠ "" →
        (Failure.fromCause cause m).failureMessage = s)
    ∧ (isPresentFailureObj cause = false → (m = none ∨ m = some "") →
        cause.isErrorObj = true → cause.errMessage ≠ "" →
        (Failure.fromCause cause m).failureMessage = cause.errMessage)
    ∧ (isPresentFailureObj cause = false → (m = none ∨ m = some "") →
        cause.isErrorObj = true → cause.errMessage = "" →
        (Failure.fromCause cause m).failureMessage = "An unknown failure occurred")
    ∧ (isPresentFailureObj cause = false → (m = none ∨ m = some "") →
        cause.isErrorObj = false → cause.falsy = true →
        (Failure.fromCause cause m).failureMessage = "unknown cause")
    ∧ (isPresentFailureObj cause = false → (m = none ∨ m = some "") →
        cause.isErrorObj = false → cause.falsy = false → JSVal.toJSString cause ≠ "" →
        (Failure.fromCause cause m).failureMessage = JSVal.toJSString cause) := by
  refine ⟨?_, ?_, ?_, ?_, ?_, ?_, ?_, ?_⟩
  · intro hp
    have hp' : (cause.isFailureObj && Failure.isPresentF cause) = true := hp
    simp [Failure.fromCause, hp']
  · intro hp
    have hp' : (cause.isFailureObj && Failure.isPresentF cause) = false := hp
    simp only [Failure.fromCause, hp', Bool.false_eq_true, if_false]
    exact isPresentFailureObj_mkFailure _ _ _
  · intro hp
    have hp' : (cause.isFailureObj && Failure.isPresentF cause) = false := hp
    simp only [Failure.fromCause, hp', Bool.false_eq_true, if_false]
    exact failureCause_mkFailure _ _ _
  · intro hp s hm hs
    subst hm
    have hp' : (cause.isFailureObj && Failure.isPresentF cause) = false := hp
    have heq : Failure.fromCause cause (some s) = mkFailure .base s cause := by
      simp [Failure.fromCause, hp', hs]
    rw [heq]
    exact failureMessage_mkFailure_of_ne _ _ _ hs
  · intro hp hm herr hne
    have hp' : (cause.isFailureObj && Failure.isPresentF cause) = false := hp
    have heq : Failure.fromCause cause m = mkFailure .base cause.errMessage cause := by
      rcases hm with hm | hm <;> subst hm <;> simp [Failure.fromCause, hp', herr]
    rw [heq]
    exact failureMessage_mkFailure_of_ne _ _ _ hne
  · intro hp hm herr hemp
    have hp' : (cause.isFailureObj && Failure.isPresentF cause) = false := hp
    have heq : Failure.fromCause cause m = mkFailure .base "" cause := by
      rcases hm with hm | hm <;> subst hm <;> simp [Failure.fromCause, hp', herr, hemp]
    rw [heq]
    exact failureMessage_mkFailure_of_eq _ _
  · intro hp hm herr hfalsy
    have hp' : (cause.isFailureObj && Failure.isPresentF cause) = false := hp
    have heq : Failure.fromCause cause m = mkFailure .base "unknown cause" cause := by
      rcases hm with hm | hm <;> subst hm <;>
        simp [Failure.fromCause, hp', herr, hfalsy, JSVal.toJSString]
    rw [heq]
    exact failureMessage_mkFailure_of_ne _ _ _ (by decide)
  · intro hp hm herr hfalsy hts
    have hp' : (cause.isFailureObj && Failure.isPresentF cause) = false := hp
    have heq : Failure.fromCause cause m = mkFailure .base (JSVal.toJSString cause) cause := by
      rcases hm with hm | hm <;> subst hm <;> simp [Failure.fromCause, hp', herr, hfalsy]
    rw [heq]
    exact failureMessage_mkFailure_of_ne _ _ _ hts

/-- Witness for C7's amended statement at the truthy non-error cause `5`. -/
theorem c7_fromCause_amended_witness :
    isPresentFailureObj (JSVal.num 5) = false
    ∧ (Failure.fromCause (JSVal.num 5) none).failureMessage = "5"
    ∧ (Failure.fromCause (JSVal.num 5) none).failureCause = JSVal.num 5 := by
  have h := c7_fromCause_amended (JSVal.num 5) none
  refine ⟨by decide, ?_, h.2.2.1 (by decide)⟩
  have hmsg := h.2.2.2.2.2.2.2 (by decide) (Or.inl rfl) (by decide) (by decide) (by decide)
  exact hmsg.trans (by decide)

/-! ### C8 -/

/-- C8: `wrapFailure(message, cause)` always returns a present Failure
wrapping the given cause, with the message resolved in order: the explicit
message when it is a string that is non-blank after trimming; else the
cause's message when the cause is an error with a non-blank message; else
exactly "An unexpected error occurred." — in particular
`wrapFailure(null, null)` carries that generic message. -/
theorem c8_wrapFailure_message_resolution (m c : JSVal)
    (hm : m = JSVal.null ∨ m = JSVal.undefined ∨ ∃ s, m = JSVal.str s) :
    isPresentFailureObj (wrapFailure m c) = true
    ∧ (wrapFailure m c).failureCause = c
    ∧ (∀ s, m = JSVal.str s → jsTrim s ≠ "" → (wrapFailure m c).failureMessage = s)
    ∧ ((∀ s, m = JSVal.str s → jsTrim s = "") → hasNonBlankErrorMessage c = true →
        (wrapFailure m c).failureMessage = c.errMessage)
    ∧ ((∀ s, m = JSVal.str s → jsTrim s = "") → hasNonBlankErrorMessage c = false →
        (wrapFailure m c).failureMessage = "An unexpected error occurred.")
    ∧ (wrapFailure JSVal.null JSVal.null).failureMessage = "An unexpected error occurred." := by
  refine ⟨isPresentFailureObj_wrap _ _, failureCause_mkFailure _ _ _, ?_, ?_, ?_, rfl⟩
  · intro s hm' hs
    subst hm'
    have heq : wrapFailure (JSVal.str s) c = Failure.wrap s c := by
      simp [wrapFailure, hs]
    rw [heq]
    have hs' : s ≠ "" := by
      intro h0
      subst h0
      exact hs rfl
    exact failureMessage_mkFailure_of_ne _ _ _ hs'
  · intro hblank herr
    have heq : wrapFailure m c = Failure.wrap c.errMessage c := by
      rcases hm with hm' | hm' | ⟨s, hm'⟩ <;> subst hm' <;>
        simp [wrapFailure, herr]
      simp [hblank _ rfl]
    rw [heq]
    exact failureMessage_mkFailure_of_ne _ _ _ (errMessage_ne_of_hasNonBlank c herr)
  · intro hblank herr
    have heq : wrapFailure m c = Failure.wrap "An unexpected error occurred." c := by
      rcases hm with hm' | hm' | ⟨s, hm'⟩ <;> subst hm' <;>
        simp [wrapFailure, herr]
      simp [hblank _ rfl]
    rw [heq]
    exact failureMessage_mkFailure_of_ne _ _ _ (by decide)

/-- Witness for C8 at the spec's concrete instance `wrapFailure(null, null)`. -/
theorem c8_wrapFailure_message_resolution_witness :
    (wrapFailure JSVal.null JSVal.null).failureMessage = "An unexpected error occurred."
    ∧ isPresentFailureObj (wrapFailure JSVal.null JSVal.null) = true
    ∧ (wrapFailure JSVal.null JSVal.null).failureCause = JSVal.null := by
  have h := c8_wrapFailure_message_resolution JSVal.null JSVal.null (Or.inl rfl)
  exact ⟨h.2.2.2.2.2, h.1, h.2.1⟩

/-! ### C9 -/

/-- C9 as stated is false: the misuse guard of `Failure.ifPresent` (absent
action) signals with a plain `Error` — not an `IllegalArgument`, not even a
`Failure`. -/
theorem c9_misuse_not_uniform_counterexample :
    Failure.ifPresent false Failure.emptyF
      = Except.error (JSVal.err "Action provided to ifPresent is null/undefined")
    ∧ (JSVal.err "Action provided to ifPresent is null/undefined").isIllegalArgument = false
    ∧ (JSVal.err "Action provided to ifPresent is null/undefined").isFailureObj = false :=
  ⟨rfl, rfl, rfl⟩

/-- C9 amended: the Result instance methods do signal misuse with an
immediately thrown `IllegalArgument` (absent action/mapper in
`ifOk`/`ifFailure`/`map`/`flatMap`; `failure()` on a success Result), but the
uniformity claimed does not extend further: `Failure.ifPresent`/`ifEmpty`
throw a plain `Error`, the async `Failure.of` and `Option.of` reject their
promise with a plain `Error` (nothing is raised synchronously from an async
function), and the async `Result.of` returns the `IllegalArgument` wrapped
inside a failure Result value instead of raising it. -/
theorem c9_misuse_signalling_amended (r : Result) :
    Result.ifOk false r = Except.error (illegalArg "Action provided to ifOk is null/undefined")
    ∧ Result.ifFailure false r
        = Except.error (illegalArg "Action provided to ifFailure is null/undefined")
    ∧ Result.map none r = Except.error (illegalArg "Mapper provided to map is null/undefined")
    ∧ Result.flatMap none r
        = Except.error (illegalArg "Mapper provided to flatMap is null/undefined")
    ∧ (r.isOk = true → Result.failureMethod r
        = Except.error (illegalArg "Cannot get failure from a successful Result."))
    ∧ (∀ m, (illegalArg m).isIllegalArgument = true)
    ∧ (∀ g, Failure.ifPresent false g
        = Except.error (JSVal.err "Action provided to ifPresent is null/undefined"))
    ∧ (∀ g, Failure.ifEmpty false g
        = Except.error (JSVal.err "Runnable provided to ifEmpty is null/undefined"))
    ∧ Failure.of none = Except.error (JSVal.err "Runnable provided to Failure.of is null/undefined")
    ∧ JSOption.of none
        = Except.error (JSVal.err "Runnable provided to Failure.of is null/undefined")
    ∧ Result.of none = Result.failureR (illegalArg "Supplier provided to Result.of is null/undefined") := by
  refine ⟨rfl, rfl, rfl, rfl, ?_, fun m => rfl, fun g => rfl, fun g => rfl, rfl, rfl, rfl⟩
  intro h
  simp [Result.failureMethod, h]

/-- Witness for C9's amended statement at the success Result `ok(1)`. -/
theorem c9_misuse_signalling_amended_witness :
    (Result.ok (JSVal.num 1)).isOk = true
    ∧ Result.failureMethod (Result.ok (JSVal.num 1))
        = Except.error (illegalArg "Cannot get failure from a successful Result.")
    ∧ Result.of none = Result.failureR (illegalArg "Supplier provided to Result.of is null/undefined") := by
  have h := c9_misuse_signalling_amended (Result.ok (JSVal.num 1))
  exact ⟨rfl, h.2.2.2.2.1 rfl, h.2.2.2.2.2.2.2.2.2.2⟩

/-! ### C10 -/

/-- C10: `okState` builds the Ok variant unconditionally for every value
(there is no value-presence validation), `initState` builds Init, and
`failureState` raises an `IllegalArgument` exactly when its argument is
absent (`null`/`undefined`) or the EMPTY sentinel, otherwise building the
Failure variant holding that present Failure. -/
theorem c10_actionstate_constructors (f : JSVal)
    (h : f = JSVal.null ∨ f = JSVal.undefined ∨ f.isFailureObj = true) :
    (∀ v, okState v = ActionState.okV v)
    ∧ initState = ActionState.init
    ∧ ((f = JSVal.null ∨ f = JSVal.undefined) → failureState f
        = Except.error (illegalArg "Failure object cannot be null or undefined for an error Result."))
    ∧ (f.isFailureObj = true → Failure.isEmptyF f = true → failureState f
        = Except.error
            (illegalArg "Cannot create a failure Result with an empty Failure object. Use Result.ok() instead."))
    ∧ (f.isFailureObj = true → Failure.isEmptyF f = false →
        failureState f = Except.ok (ActionState.failureV f) ∧ isPresentFailureObj f = true)
    ∧ ((∃ e, failureState f = Except.error e ∧ e.isIllegalArgument = true)
        ↔ (f = JSVal.null ∨ f = JSVal.undefined ∨ Failure.isEmptyF f = true)) := by
  refine ⟨fun v => rfl, rfl, ?_, ?_, ?_, ?_⟩
  · rintro (h3 | h3) <;> subst h3 <;> rfl
  · intro hf he
    cases f with
    | failure k msg c s =>
      have hs : s = true := he
      subst hs
      rfl
    | undefined => simp [JSVal.isFailureObj] at hf
    | null => simp [JSVal.isFailureObj] at hf
    | bool b => simp [JSVal.isFailureObj] at hf
    | num n => simp [JSVal.isFailureObj] at hf
    | str s => simp [JSVal.isFailureObj] at hf
    | err m => simp [JSVal.isFailureObj] at hf
  · intro hf he
    cases f with
    | failure k msg c s =>
      have hs : s = false := he
      subst hs
      exact ⟨rfl, rfl⟩
    | undefined => simp [JSVal.isFailureObj] at hf
    | null => simp [JSVal.isFailureObj] at hf
    | bool b => simp [JSVal.isFailureObj] at hf
    | num n => simp [JSVal.isFailureObj] at hf
    | str s => simp [JSVal.isFailureObj] at hf
    | err m => simp [JSVal.isFailureObj] at hf
  · rcases h with h1 | h1 | h1
    · subst h1
      exact iff_of_true ⟨_, rfl, rfl⟩ (Or.inl rfl)
    · subst h1
      exact iff_of_true ⟨_, rfl, rfl⟩ (Or.inr (Or.inl rfl))
    · cases f with
      | failure k msg c s =>
        cases s with
        | true => exact iff_of_true ⟨_, rfl, rfl⟩ (Or.inr (Or.inr rfl))
        | false =>
          refine iff_of_false ?_ ?_
          · rintro ⟨e, he, _⟩
            exact absurd he (by simp [failureState, Failure.isEmptyF, JSVal.isSentinel])
          · rintro (h2 | h2 | h2) <;> simp_all [Failure.isEmptyF, JSVal.isSentinel]
      | undefined => simp [JSVal.isFailureObj] at h1
      | null => simp [JSVal.isFailureObj] at h1
      | bool b => simp [JSVal.isFailureObj] at h1
      | num n => simp [JSVal.isFailureObj] at h1
      | str s => simp [JSVal.isFailureObj] at h1
      | err m => simp [JSVal.isFailureObj] at h1

/-- Witness for C10 at the EMPTY sentinel and at a present Failure. -/
theorem c10_actionstate_constructors_witness :
    failureState Failure.emptyF
      = Except.error
          (illegalArg "Cannot create a failure Result with an empty Failure object. Use Result.ok() instead.")
    ∧ failureState (Failure.ofMessage "x")
      = Except.ok (ActionState.failureV (Failure.ofMessage "x")) := by
  have h1 := c10_actionstate_constructors Failure.emptyF (Or.inr (Or.inr (by decide)))
  have h2 := c10_actionstate_constructors (Failure.ofMessage "x") (Or.inr (Or.inr (by decide)))
  exact ⟨h1.2.2.2.1 (by decide) (by decide), (h2.2.2.2.2.1 (by decide) (by decide)).1⟩

end TsFp
